import Mathlib

/-!
Shallow embedding of the RockTimer central server core
(`src/server/main.py`, class `RockTimerServer`), covering the measurement
coordinator state machine, the timing session, the history store, the
liveness map, and the UDP ingress admission logic.

Conventions of the embedding:
* Python `int` nanosecond timestamps become `Int` (arbitrary precision,
  exact, like Python ints).
* Python float millisecond values become `ℚ`; every division performed by
  the code is `(b - a) / 1_000_000` on exact integers, and at every value
  examined by a theorem below the quotient is exactly representable, so
  the rational model agrees with IEEE double evaluation there.
* Python truthiness on optional integers (`if x:` where `x` is
  `Optional[int]`) is `truthyInt`: `None` and `0` are falsy.
* `datetime.now()` / `time.time()` wall-clock reads are passed in as an
  explicit `now : Nat` parameter.
* The liveness dict `sensor_last_seen` is an association list updated by
  key replacement, like a Python dict assignment.
-/

/-- Python truthiness of an `Optional[int]` value: `None` and `0` are falsy. -/
def truthyInt : Option Int → Bool
  | none => false
  | some n => n != 0

/-- Python truthiness of an `Optional[str]` value: `None` and `""` are falsy. -/
def truthyStr : Option String → Bool
  | none => false
  | some s => s != ""

/-- `class SystemState(str, Enum)` from `main.py`. -/
inductive SystemState where
  | idle
  | armed
  | measuring
  | completed
deriving DecidableEq, Repr

/-- `class TimingSession` from `main.py`: the mutable per-measurement state.
`started_at` abstracts the `datetime` wall-clock stamp as a `Nat`. -/
structure TimingSession where
  tee_time_ns : Option Int
  hog_close_time_ns : Option Int
  hog_far_time_ns : Option Int
  started_at : Option Nat
deriving DecidableEq, Repr

/-- `TimingSession.reset()`: all fields cleared (also the state of a freshly
constructed session, since `__init__` calls `reset`). -/
def TimingSession.resetSession : TimingSession :=
  { tee_time_ns := none, hog_close_time_ns := none,
    hog_far_time_ns := none, started_at := none }

/-- Property `TimingSession.tee_to_hog_close_ms`: defined when both endpoint
timestamps are truthy, `(hog_close - tee) / 1e6` milliseconds. -/
def TimingSession.tee_to_hog_close_ms (s : TimingSession) : Option ℚ :=
  if truthyInt s.tee_time_ns && truthyInt s.hog_close_time_ns then
    some ((((s.hog_close_time_ns.getD 0 : Int) : ℚ) -
           ((s.tee_time_ns.getD 0 : Int) : ℚ)) / 1000000)
  else none

/-- Property `TimingSession.hog_to_hog_ms`. -/
def TimingSession.hog_to_hog_ms (s : TimingSession) : Option ℚ :=
  if truthyInt s.hog_close_time_ns && truthyInt s.hog_far_time_ns then
    some ((((s.hog_far_time_ns.getD 0 : Int) : ℚ) -
           ((s.hog_close_time_ns.getD 0 : Int) : ℚ)) / 1000000)
  else none

/-- Property `TimingSession.total_ms`. -/
def TimingSession.total_ms (s : TimingSession) : Option ℚ :=
  if truthyInt s.tee_time_ns && truthyInt s.hog_far_time_ns then
    some ((((s.hog_far_time_ns.getD 0 : Int) : ℚ) -
           ((s.tee_time_ns.getD 0 : Int) : ℚ)) / 1000000)
  else none

/-- Property `TimingSession.has_hog_close`: note the source uses
`is not None` here, not truthiness. -/
def TimingSession.has_hog_close (s : TimingSession) : Bool :=
  s.tee_time_ns.isSome && s.hog_close_time_ns.isSome

/-- Property `TimingSession.has_hog_far`. -/
def TimingSession.has_hog_far (s : TimingSession) : Bool :=
  s.hog_far_time_ns.isSome

/-- The dict produced by `TimingSession.to_dict()`. -/
structure SessionDict where
  tee_time_ns : Option Int
  hog_close_time_ns : Option Int
  hog_far_time_ns : Option Int
  tee_to_hog_close_ms : Option ℚ
  hog_to_hog_ms : Option ℚ
  total_ms : Option ℚ
  has_hog_close : Bool
  has_hog_far : Bool
  started_at : Option Nat
deriving DecidableEq, Repr

/-- `TimingSession.to_dict()`. -/
def TimingSession.to_dict (s : TimingSession) : SessionDict :=
  { tee_time_ns := s.tee_time_ns
    hog_close_time_ns := s.hog_close_time_ns
    hog_far_time_ns := s.hog_far_time_ns
    tee_to_hog_close_ms := s.tee_to_hog_close_ms
    hog_to_hog_ms := s.hog_to_hog_ms
    total_ms := s.total_ms
    has_hog_close := s.has_hog_close
    has_hog_far := s.has_hog_far
    started_at := s.started_at }

/-- `@dataclass TimingRecord` from `main.py`. The `timestamp` field holds the
session's `started_at` wall-clock stamp. -/
structure TimingRecord where
  id : Nat
  timestamp : Option Nat
  tee_to_hog_close_ms : Option ℚ
  hog_to_hog_ms : Option ℚ
  total_ms : Option ℚ
deriving DecidableEq, Repr

/-- One entry of the `sensor_last_seen` liveness dict. The `(ip, port)`
sender address is abstracted into one `addr` string. -/
structure SensorEntry where
  last_seen_ts : Nat
  addr : String
  source : String
deriving DecidableEq, Repr

/-- Dict assignment `d[k] = v` on an association list: replace the entry for
the key if present, otherwise append it. -/
def setEntry (k : String) (v : SensorEntry) :
    List (String × SensorEntry) → List (String × SensorEntry)
  | [] => [(k, v)]
  | (k', v') :: rest =>
      if k' = k then (k, v) :: rest else (k', v') :: setEntry k v rest

/-- The mutable state of `class RockTimerServer` relevant to the coordinator:
system state, session, history, id counter and liveness map. -/
structure RockTimerServer where
  state : SystemState
  session : TimingSession
  history : List TimingRecord
  next_id : Nat
  sensor_last_seen : List (String × SensorEntry)
deriving DecidableEq, Repr

/-- The server as built by `RockTimerServer.__init__`. -/
def initialServer : RockTimerServer :=
  { state := .idle, session := .resetSession, history := [],
    next_id := 1, sensor_last_seen := [] }

/-- `RockTimerServer._mark_sensor_seen(device_id, addr, source)`, with the
wall clock passed in as `now`. -/
def RockTimerServer.mark_sensor_seen (device_id addr source : String)
    (now : Nat) (s : RockTimerServer) : RockTimerServer :=
  { s with sensor_last_seen :=
      (setEntry device_id
        { last_seen_ts := now, addr := addr, source := source }
        s.sensor_last_seen) }

/-- `RockTimerServer._update_last_record()`: if the history is nonempty,
overwrite the front record's second split and total from the live session. -/
def RockTimerServer.update_last_record (s : RockTimerServer) : RockTimerServer :=
  match s.history with
  | [] => s
  | r :: rest =>
      { s with history :=
          ({ r with hog_to_hog_ms := s.session.hog_to_hog_ms,
                    total_ms := s.session.total_ms } :: rest) }

/-- `RockTimerServer._complete_measurement()`: move to Completed, build a
record from the session, assign the next id, push it to the front of the
history and trim the history to 100 entries. -/
def RockTimerServer.complete_measurement (s : RockTimerServer) : RockTimerServer :=
  let record : TimingRecord :=
    { id := s.next_id
      timestamp := s.session.started_at
      tee_to_hog_close_ms := s.session.tee_to_hog_close_ms
      hog_to_hog_ms := none
      total_ms := none }
  let hist := record :: s.history
  let hist := if hist.length > 100 then hist.take 100 else hist
  { s with state := .completed, next_id := s.next_id + 1, history := hist }

/-- The elif chain of `_handle_trigger` (the block headed by the comment
`Record timestamp (first only for each sensor, in correct order)`), acting
on the server after the possible Armed-to-Measuring transition. -/
def RockTimerServer.record_trigger (device_id : String) (timestamp_ns : Int)
    (s1 : RockTimerServer) : RockTimerServer :=
  if device_id = "tee" ∧ ¬ truthyInt s1.session.tee_time_ns then
    { s1 with session := { s1.session with tee_time_ns := some timestamp_ns } }
  else if device_id = "hog_close" ∧ ¬ truthyInt s1.session.hog_close_time_ns then
    -- Ignore if hog_close arrives before tee (invalid order)
    if truthyInt s1.session.tee_time_ns ∧
        timestamp_ns > s1.session.tee_time_ns.getD 0 then
      RockTimerServer.complete_measurement
        { s1 with session :=
            ({ s1.session with hog_close_time_ns := some timestamp_ns }) }
    else s1
  else if device_id = "hog_far" ∧ ¬ truthyInt s1.session.hog_far_time_ns then
    -- Ignore if hog_far arrives before hog_close (invalid order)
    if truthyInt s1.session.hog_close_time_ns ∧
        timestamp_ns > s1.session.hog_close_time_ns.getD 0 then
      RockTimerServer.update_last_record
        { s1 with session :=
            ({ s1.session with hog_far_time_ns := some timestamp_ns }) }
    else s1
  else s1

/-- `RockTimerServer._handle_trigger(device_id, timestamp_ns)`, the event
admission algorithm, translated branch by branch from the source. `now`
stands for the `datetime.now()` read used to stamp `started_at`. -/
def RockTimerServer.handle_trigger (device_id : String) (timestamp_ns : Int)
    (now : Nat) (s : RockTimerServer) : RockTimerServer :=
  -- hog_far can arrive after COMPLETED - update the latest measurement
  if device_id = "hog_far" ∧ s.state = .completed then
    if ¬ truthyInt s.session.hog_far_time_ns then
      RockTimerServer.update_last_record
        { s with session := { s.session with hog_far_time_ns := some timestamp_ns } }
    else s
  -- Otherwise ignore if we are not ready to measure
  else if ¬ (s.state = .armed ∨ s.state = .measuring) then s
  else
    -- First trigger starts the measurement
    let s1 :=
      if s.state = .armed then
        { s with state := .measuring,
                 session := { s.session with started_at := some now } }
      else s
    RockTimerServer.record_trigger device_id timestamp_ns s1

/-- `RockTimerServer.arm()`: returns the success flag together with the
updated server. -/
def RockTimerServer.arm (s : RockTimerServer) : Bool × RockTimerServer :=
  if ¬ (s.state = .idle ∨ s.state = .completed) then
    (false, s)
  else
    (true, { s with session := .resetSession, state := .armed })

/-- `RockTimerServer.disarm()`: returns the success flag together with the
updated server. The source sets IDLE and resets unconditionally. -/
def RockTimerServer.disarm (s : RockTimerServer) : Bool × RockTimerServer :=
  (true, { s with state := .idle, session := .resetSession })

/-- `RockTimerServer.clear_history()`. -/
def RockTimerServer.clear_history (s : RockTimerServer) : RockTimerServer :=
  { s with history := [], next_id := 1 }

/-- The dict produced by `RockTimerServer.get_state()`. The source returns a
literal `'sensors': {}` placeholder. -/
structure StateSnapshot where
  state : SystemState
  session : SessionDict
  sensors : List (String × SensorEntry)
deriving DecidableEq, Repr

/-- `RockTimerServer.get_state()`. -/
def RockTimerServer.get_state (s : RockTimerServer) : StateSnapshot :=
  { state := s.state, session := s.session.to_dict, sensors := [] }

/-- The message `_broadcast_state` serialises and sends to every WebSocket
client: `{'type': 'state_update', 'data': get_state()}`. -/
structure BroadcastMessage where
  type : String
  data : StateSnapshot
deriving DecidableEq, Repr

/-- Payload of one broadcast, as built in `RockTimerServer._broadcast_state`. -/
def RockTimerServer.broadcast_message (s : RockTimerServer) : BroadcastMessage :=
  { type := "state_update", data := s.get_state }

/-- A parsed UDP payload (`json.loads` result), with `.get` fields optional. -/
structure Payload where
  type : Option String
  device_id : Option String
  timestamp_ns : Option Int
deriving DecidableEq, Repr

/-- One iteration of `RockTimerServer._udp_listener_loop` on a successfully
parsed payload: trigger messages update liveness when `device_id` is truthy
and reach `_handle_trigger` only when `timestamp_ns` is also truthy;
heartbeats only update liveness. -/
def RockTimerServer.udp_step (p : Payload) (addr : String) (now : Nat)
    (s : RockTimerServer) : RockTimerServer :=
  if p.type = some "trigger" then
    let s1 :=
      if truthyStr p.device_id then
        RockTimerServer.mark_sensor_seen (p.device_id.getD "") addr "trigger" now s
      else s
    if truthyStr p.device_id ∧ truthyInt p.timestamp_ns then
      RockTimerServer.handle_trigger (p.device_id.getD "") (p.timestamp_ns.getD 0) now s1
    else s1
  else if p.type = some "heartbeat" then
    if truthyStr p.device_id then
      RockTimerServer.mark_sensor_seen (p.device_id.getD "") addr "heartbeat" now s
    else s
  else s

/-- Largest record id present in a history (0 for an empty history). -/
def maxId (h : List TimingRecord) : Nat :=
  h.foldr (fun r acc => max r.id acc) 0

/-- Servers reachable from the freshly constructed one through the
coordinator's inbound surface: arm and disarm commands, admitted trigger
events (whose `timestamp_ns` passed the ingress truthiness filter, hence is
nonzero), clearing the history, and liveness updates. -/
inductive Reachable : RockTimerServer → Prop
  | init : Reachable initialServer
  | armStep {s} : Reachable s → Reachable (RockTimerServer.arm s).2
  | disarmStep {s} : Reachable s → Reachable (RockTimerServer.disarm s).2
  | triggerStep {s} (d : String) (ts : Int) (now : Nat) :
      Reachable s → ts ≠ 0 →
      Reachable (RockTimerServer.handle_trigger d ts now s)
  | clearStep {s} : Reachable s → Reachable (RockTimerServer.clear_history s)
  | markStep {s} (d a src : String) (now : Nat) :
      Reachable s → Reachable (RockTimerServer.mark_sensor_seen d a src now s)

/-! ## Shared concrete traces used by witnesses and counterexamples -/

/-- The server right after a successful arm command. -/
def armedServer : RockTimerServer := (RockTimerServer.arm initialServer).2

/-- Armed server after a tee trigger at 10 ns: now measuring. -/
def measuringServer : RockTimerServer :=
  RockTimerServer.handle_trigger "tee" 10 0 armedServer

/-- Measuring server after a hog_close trigger at 20 ns: now completed, with
one history record. -/
def completedServer : RockTimerServer :=
  RockTimerServer.handle_trigger "hog_close" 20 1 measuringServer

/-- The single history record of `completedServer`. -/
def completedRecord : TimingRecord :=
  { id := 1, timestamp := some 0, tee_to_hog_close_ms := some (1 / 100000),
    hog_to_hog_ms := none, total_ms := none }

/-! ## C8: arm command guard -/

/-- C8: the arm command returns false and leaves the server unchanged
whenever the state is neither Idle nor Completed; in Idle or Completed it
resets the session, moves to Armed and returns true. -/
theorem arm_guard_spec (s : RockTimerServer) :
    (¬ (s.state = .idle ∨ s.state = .completed) →
      RockTimerServer.arm s = (false, s)) ∧
    ((s.state = .idle ∨ s.state = .completed) →
      RockTimerServer.arm s =
        (true, { s with session := .resetSession, state := .armed })) := by
  constructor <;> intro hcase <;> simp [RockTimerServer.arm, hcase]

/-- Witness for C8 at the freshly constructed (Idle) server. -/
theorem arm_guard_spec_witness :
    RockTimerServer.arm initialServer =
      (true, { initialServer with session := .resetSession, state := .armed }) :=
  (arm_guard_spec initialServer).2 (Or.inl rfl)

/-! ## C6: disarm command -/

/-- Counterexample to C6: a disarm issued while Measuring is not a no-op
returning false; it returns true and moves the system to Idle. -/
theorem disarm_measuring_counterexample :
    measuringServer.state = .measuring ∧
    (RockTimerServer.disarm measuringServer).1 = true ∧
    (RockTimerServer.disarm measuringServer).2.state = .idle := by
  refine ⟨by decide, rfl, rfl⟩

/-- C6 (amended): disarm succeeds unconditionally in every state: it returns
true, moves the system to Idle and clears the session, leaving the history,
the id counter and the liveness map untouched. -/
theorem disarm_always_succeeds (s : RockTimerServer) :
    (RockTimerServer.disarm s).1 = true ∧
    (RockTimerServer.disarm s).2.state = .idle ∧
    (RockTimerServer.disarm s).2.session = .resetSession ∧
    (RockTimerServer.disarm s).2.history = s.history ∧
    (RockTimerServer.disarm s).2.next_id = s.next_id ∧
    (RockTimerServer.disarm s).2.sensor_last_seen = s.sensor_last_seen := by
  simp [RockTimerServer.disarm]

/-! ## C7: published state snapshot -/

/-- Counterexample to C7: even when the liveness map has an entry, the
published snapshot carries an empty sensors field, so it does not include
liveness status per checkpoint identity. -/
theorem snapshot_no_liveness_counterexample :
    (RockTimerServer.mark_sensor_seen "tee" "10.0.0.1" "heartbeat" 100
        initialServer).sensor_last_seen ≠ [] ∧
    (RockTimerServer.get_state
      (RockTimerServer.mark_sensor_seen "tee" "10.0.0.1" "heartbeat" 100
        initialServer)).sensors = [] := by
  refine ⟨by decide, rfl⟩

/-- C7 (amended): every published snapshot - the query result and the data
field of each broadcast - includes the system state enum, the nullable
per-checkpoint timestamps, the presence flags and all derived split values,
but its sensors field is always the empty placeholder: per-checkpoint
liveness is not part of the snapshot. -/
theorem snapshot_contents (s : RockTimerServer) :
    (RockTimerServer.get_state s).state = s.state ∧
    (RockTimerServer.get_state s).session.tee_time_ns = s.session.tee_time_ns ∧
    (RockTimerServer.get_state s).session.hog_close_time_ns = s.session.hog_close_time_ns ∧
    (RockTimerServer.get_state s).session.hog_far_time_ns = s.session.hog_far_time_ns ∧
    (RockTimerServer.get_state s).session.tee_to_hog_close_ms = s.session.tee_to_hog_close_ms ∧
    (RockTimerServer.get_state s).session.hog_to_hog_ms = s.session.hog_to_hog_ms ∧
    (RockTimerServer.get_state s).session.total_ms = s.session.total_ms ∧
    (RockTimerServer.get_state s).session.has_hog_close = s.session.has_hog_close ∧
    (RockTimerServer.get_state s).session.has_hog_far = s.session.has_hog_far ∧
    (RockTimerServer.get_state s).sensors = [] ∧
    (RockTimerServer.broadcast_message s).type = "state_update" ∧
    (RockTimerServer.broadcast_message s).data = RockTimerServer.get_state s := by
  simp [RockTimerServer.get_state, RockTimerServer.broadcast_message,
    TimingSession.to_dict]

/-! ## C9: clearing the history resets the id counter -/

/-- C9: clear empties the history and resets the id counter to 1, so the
first measurement completed after a clear (arm, tee, hog_close) produces a
history whose only record carries id 1. -/
theorem clear_history_resets_ids (s : RockTimerServer) (t0 : Int)
    (now1 now2 : Nat) (hidle : s.state = .idle) (ht0 : t0 ≠ 0) :
    (RockTimerServer.clear_history s).history = [] ∧
    (RockTimerServer.clear_history s).next_id = 1 ∧
    (RockTimerServer.handle_trigger "hog_close" (t0 + 1) now2
      (RockTimerServer.handle_trigger "tee" t0 now1
        (RockTimerServer.arm (RockTimerServer.clear_history s)).2)).history.map
          TimingRecord.id = [1] := by
  refine ⟨rfl, rfl, ?_⟩
  simp [RockTimerServer.clear_history, RockTimerServer.arm, hidle,
    RockTimerServer.handle_trigger, RockTimerServer.record_trigger, TimingSession.resetSession, truthyInt, ht0,
    RockTimerServer.complete_measurement]

/-- Witness for C9: a server that already used id 1, was disarmed, cleared,
and after the next completed measurement reuses id 1. -/
theorem clear_history_resets_ids_witness :
    (RockTimerServer.disarm completedServer).2.history.map TimingRecord.id = [1] ∧
    ((RockTimerServer.clear_history (RockTimerServer.disarm completedServer).2).history = [] ∧
     (RockTimerServer.clear_history (RockTimerServer.disarm completedServer).2).next_id = 1 ∧
     (RockTimerServer.handle_trigger "hog_close" ((5 : Int) + 1) 3
       (RockTimerServer.handle_trigger "tee" 5 2
         (RockTimerServer.arm (RockTimerServer.clear_history
           (RockTimerServer.disarm completedServer).2)).2)).history.map
             TimingRecord.id = [1]) :=
  ⟨by decide, clear_history_resets_ids (RockTimerServer.disarm completedServer).2
      5 2 3 (by decide) (by decide)⟩

/-! ## C10: ingress filters triggers with missing or zero timestamps -/

/-- C10: a parsed trigger whose timestamp_ns is missing or 0 (with a truthy
device_id) updates only the liveness entry of the sender; the system state,
session and history are untouched. -/
theorem udp_zero_timestamp_liveness_only (p : Payload) (addr : String)
    (now : Nat) (s : RockTimerServer) (d : String)
    (htype : p.type = some "trigger") (hdev : p.device_id = some d)
    (hne : d ≠ "") (hts : p.timestamp_ns = none ∨ p.timestamp_ns = some 0) :
    RockTimerServer.udp_step p addr now s =
      RockTimerServer.mark_sensor_seen d addr "trigger" now s ∧
    (RockTimerServer.udp_step p addr now s).state = s.state ∧
    (RockTimerServer.udp_step p addr now s).session = s.session ∧
    (RockTimerServer.udp_step p addr now s).history = s.history ∧
    (RockTimerServer.udp_step p addr now s).sensor_last_seen =
      setEntry d { last_seen_ts := now, addr := addr, source := "trigger" }
        s.sensor_last_seen := by
  have hmain : RockTimerServer.udp_step p addr now s =
      RockTimerServer.mark_sensor_seen d addr "trigger" now s := by
    rcases hts with hts | hts <;>
      simp [RockTimerServer.udp_step, htype, hdev, hts, truthyStr, truthyInt, hne]
  refine ⟨hmain, ?_, ?_, ?_, ?_⟩ <;>
    simp [hmain, RockTimerServer.mark_sensor_seen]

/-- Witness for C10 at a concrete zero-timestamp trigger payload. -/
theorem udp_zero_timestamp_liveness_only_witness :
    RockTimerServer.udp_step
        { type := some "trigger", device_id := some "tee", timestamp_ns := some 0 }
        "10.0.0.2" 7 initialServer =
      RockTimerServer.mark_sensor_seen "tee" "10.0.0.2" "trigger" 7 initialServer ∧
    (RockTimerServer.udp_step
        { type := some "trigger", device_id := some "tee", timestamp_ns := some 0 }
        "10.0.0.2" 7 initialServer).state = initialServer.state ∧
    (RockTimerServer.udp_step
        { type := some "trigger", device_id := some "tee", timestamp_ns := some 0 }
        "10.0.0.2" 7 initialServer).session = initialServer.session ∧
    (RockTimerServer.udp_step
        { type := some "trigger", device_id := some "tee", timestamp_ns := some 0 }
        "10.0.0.2" 7 initialServer).history = initialServer.history ∧
    (RockTimerServer.udp_step
        { type := some "trigger", device_id := some "tee", timestamp_ns := some 0 }
        "10.0.0.2" 7 initialServer).sensor_last_seen =
      setEntry "tee" { last_seen_ts := 7, addr := "10.0.0.2", source := "trigger" }
        initialServer.sensor_last_seen :=
  udp_zero_timestamp_liveness_only _ _ _ _ "tee" rfl rfl (by decide) (Or.inr rfl)

/-! ## C4: triggers with unrecognized checkpoint identities -/

/-- Counterexample to C4: in the Armed state a trigger with an unrecognized
identity does move the system to Measuring (the transition happens before
the identity is examined), even though it records no timestamp. -/
theorem unknown_trigger_measuring_counterexample :
    armedServer.state = .armed ∧
    (RockTimerServer.handle_trigger "gate" 5 3 armedServer).state = .measuring ∧
    (RockTimerServer.handle_trigger "gate" 5 3 armedServer).session.tee_time_ns = none ∧
    (RockTimerServer.handle_trigger "gate" 5 3 armedServer).session.hog_close_time_ns = none ∧
    (RockTimerServer.handle_trigger "gate" 5 3 armedServer).session.hog_far_time_ns = none := by
  decide

/-- C4 (amended): a trigger with an identity outside {tee, hog_close,
hog_far} never records a timestamp and never changes the history; in every
state other than Armed it leaves the server completely unchanged, but in the
Armed state it still moves the system to Measuring and stamps the session
start time. -/
theorem unknown_trigger_spec (s : RockTimerServer) (d : String) (ts : Int)
    (now : Nat) (h1 : d ≠ "tee") (h2 : d ≠ "hog_close") (h3 : d ≠ "hog_far") :
    (s.state = .armed →
      RockTimerServer.handle_trigger d ts now s =
        { s with state := .measuring,
                 session := { s.session with started_at := some now } }) ∧
    (s.state ≠ .armed → RockTimerServer.handle_trigger d ts now s = s) := by
  constructor <;> intro hstate
  · simp [RockTimerServer.handle_trigger, RockTimerServer.record_trigger, hstate, h1, h2, h3]
  · cases hst : s.state
    case armed => simp [hst] at hstate
    all_goals simp [RockTimerServer.handle_trigger, RockTimerServer.record_trigger, hst, h1, h2, h3]

/-- Witness for C4 (amended) at the armed server and identity "gate". -/
theorem unknown_trigger_spec_witness :
    RockTimerServer.handle_trigger "gate" 5 3 armedServer =
      { armedServer with
          state := .measuring,
          session := { armedServer.session with started_at := some 3 } } :=
  (unknown_trigger_spec armedServer "gate" 5 3 (by decide) (by decide)
      (by decide)).1 (by decide)

/-! ## C3: hog_far monotonicity -/

/-- Counterexample to C3: in the Completed state a hog_far trigger at 15 ns,
below the recorded hog_close timestamp 20 ns, is stored anyway and the front
record receives a (negative) second split instead of staying null. -/
theorem hog_far_backfill_ignores_order_counterexample :
    completedServer.state = .completed ∧
    completedServer.session.hog_close_time_ns = some 20 ∧
    (RockTimerServer.handle_trigger "hog_far" 15 2
      completedServer).session.hog_far_time_ns = some 15 ∧
    (RockTimerServer.handle_trigger "hog_far" 15 2
      completedServer).history.map TimingRecord.hog_to_hog_ms =
        [some (-(1 / 200000 : ℚ))] := by
  refine ⟨by decide, by decide, by decide, ?_⟩
  simp [completedServer, measuringServer, armedServer, initialServer,
    RockTimerServer.handle_trigger, RockTimerServer.record_trigger, RockTimerServer.arm,
    RockTimerServer.complete_measurement, RockTimerServer.update_last_record,
    TimingSession.resetSession, TimingSession.tee_to_hog_close_ms,
    TimingSession.hog_to_hog_ms, TimingSession.total_ms, truthyInt]
  norm_num

/-- C3 (amended): in every state other than Completed, a hog_far trigger
whose timestamp is at most the recorded hog_close timestamp is rejected -
the hog_far slot and the history are unchanged; in the Completed state with
an empty hog_far slot, the trigger is stored unconditionally, with no
monotonicity check. -/
theorem hog_far_order_guard_spec (s : RockTimerServer) (h ts : Int)
    (now : Nat) :
    (s.state ≠ .completed → s.session.hog_close_time_ns = some h → ts ≤ h →
      (RockTimerServer.handle_trigger "hog_far" ts now s).session.hog_far_time_ns =
        s.session.hog_far_time_ns ∧
      (RockTimerServer.handle_trigger "hog_far" ts now s).history = s.history) ∧
    (s.state = .completed → s.session.hog_far_time_ns = none →
      (RockTimerServer.handle_trigger "hog_far" ts now s).session.hog_far_time_ns =
        some ts) := by
  constructor
  · intro hnc hhc hle
    have hnotgt : ¬ ts > h := by omega
    cases hst : s.state
    case completed => simp [hst] at hnc
    case idle => simp [RockTimerServer.handle_trigger, RockTimerServer.record_trigger, hst]
    case armed =>
      simp [RockTimerServer.handle_trigger, RockTimerServer.record_trigger, hst, hhc, truthyInt, hnotgt]
    case measuring =>
      simp [RockTimerServer.handle_trigger, RockTimerServer.record_trigger, hst, hhc, truthyInt, hnotgt]
  · intro hst hfar
    simp [RockTimerServer.handle_trigger, RockTimerServer.record_trigger, hst, hfar, truthyInt,
      RockTimerServer.update_last_record]
    cases hh : s.history <;> simp

/-- Witness for C3 (amended): the Completed branch at the concrete completed
server with a too-early hog_far trigger. -/
theorem hog_far_order_guard_spec_witness :
    (RockTimerServer.handle_trigger "hog_far" 15 2
      completedServer).session.hog_far_time_ns = some 15 :=
  (hog_far_order_guard_spec completedServer 20 15 2).2 (by decide) (by decide)

/-! ## C5: Completed-state hog_far backfill frame effect -/

/-- C5: in the Completed state with an empty hog_far slot, a hog_far trigger
above the recorded hog_close timestamp stores the timestamp, overwrites the
front record second split and total in place, and changes nothing else: the
state stays Completed, the tail of the history and its length are untouched. -/
theorem hog_far_backfill_frame_spec (s : RockTimerServer) (t h ts : Int)
    (now : Nat) (r : TimingRecord) (rest : List TimingRecord)
    (hst : s.state = .completed)
    (htee : s.session.tee_time_ns = some t) (ht : t ≠ 0)
    (hhc : s.session.hog_close_time_ns = some h) (hh : h ≠ 0)
    (hfar : s.session.hog_far_time_ns = none)
    (hhist : s.history = r :: rest)
    (_hgt : ts > h) (hts : ts ≠ 0) :
    (RockTimerServer.handle_trigger "hog_far" ts now s).state = .completed ∧
    (RockTimerServer.handle_trigger "hog_far" ts now s).session.hog_far_time_ns =
      some ts ∧
    (RockTimerServer.handle_trigger "hog_far" ts now s).history =
      { r with hog_to_hog_ms := some (((ts : ℚ) - (h : ℚ)) / 1000000),
               total_ms := some (((ts : ℚ) - (t : ℚ)) / 1000000) } :: rest ∧
    (RockTimerServer.handle_trigger "hog_far" ts now s).history.length =
      s.history.length ∧
    (RockTimerServer.handle_trigger "hog_far" ts now s).next_id = s.next_id := by
  simp [RockTimerServer.handle_trigger, RockTimerServer.record_trigger, hst, hfar, truthyInt,
    RockTimerServer.update_last_record, hhist, TimingSession.hog_to_hog_ms,
    TimingSession.total_ms, htee, hhc, ht, hh, hts]

/-- Witness for C5: backfilling the concrete completed server at 25 ns. -/
theorem hog_far_backfill_frame_spec_witness :
    (RockTimerServer.handle_trigger "hog_far" 25 2 completedServer).state =
      .completed ∧
    (RockTimerServer.handle_trigger "hog_far" 25 2
      completedServer).session.hog_far_time_ns = some 25 ∧
    (RockTimerServer.handle_trigger "hog_far" 25 2 completedServer).history =
      { completedRecord with
          hog_to_hog_ms := some ((((25 : Int) : ℚ) - ((20 : Int) : ℚ)) / 1000000),
          total_ms := some ((((25 : Int) : ℚ) - ((10 : Int) : ℚ)) / 1000000) } :: [] ∧
    (RockTimerServer.handle_trigger "hog_far" 25 2 completedServer).history.length =
      completedServer.history.length ∧
    (RockTimerServer.handle_trigger "hog_far" 25 2 completedServer).next_id =
      completedServer.next_id :=
  hog_far_backfill_frame_spec completedServer 10 20 25 2 completedRecord []
    (by decide) (by decide) (by decide) (by decide) (by decide) (by decide)
    (by simp [completedServer, measuringServer, armedServer, initialServer,
          RockTimerServer.handle_trigger, RockTimerServer.record_trigger, RockTimerServer.arm,
          RockTimerServer.complete_measurement, TimingSession.resetSession,
          TimingSession.tee_to_hog_close_ms, truthyInt, completedRecord]
        norm_num)
    (by decide) (by decide)

/-! ## Invariants of reachable servers -/

@[simp]
lemma update_last_record_session (s : RockTimerServer) :
    (RockTimerServer.update_last_record s).session = s.session := by
  unfold RockTimerServer.update_last_record
  cases s.history <;> rfl

@[simp]
lemma update_last_record_state (s : RockTimerServer) :
    (RockTimerServer.update_last_record s).state = s.state := by
  unfold RockTimerServer.update_last_record
  cases s.history <;> rfl

@[simp]
lemma update_last_record_next_id (s : RockTimerServer) :
    (RockTimerServer.update_last_record s).next_id = s.next_id := by
  unfold RockTimerServer.update_last_record
  cases s.history <;> rfl

@[simp]
lemma complete_measurement_session (s : RockTimerServer) :
    (RockTimerServer.complete_measurement s).session = s.session := rfl

@[simp]
lemma complete_measurement_state (s : RockTimerServer) :
    (RockTimerServer.complete_measurement s).state = .completed := rfl

/-- Invariant of the live session over all reachable servers: every recorded
timestamp is nonzero (it passed the ingress truthiness filter), a recorded
hog_close implies a recorded tee, and tee is strictly below hog_close. -/
def sessionInv (sess : TimingSession) : Prop :=
  (∀ t, sess.tee_time_ns = some t → t ≠ 0) ∧
  (∀ h, sess.hog_close_time_ns = some h → h ≠ 0) ∧
  (∀ f, sess.hog_far_time_ns = some f → f ≠ 0) ∧
  (sess.hog_close_time_ns ≠ none → sess.tee_time_ns ≠ none) ∧
  (∀ t h, sess.tee_time_ns = some t → sess.hog_close_time_ns = some h → t < h)

lemma sessionInv_reset : sessionInv TimingSession.resetSession := by
  simp [sessionInv, TimingSession.resetSession]

@[simp]
lemma truthyInt_none : truthyInt none = false := rfl

@[simp]
lemma truthyInt_some (n : Int) : truthyInt (some n) = (n != 0) := rfl

lemma sessionInv_started_at (sess : TimingSession) (x : Option Nat)
    (hinv : sessionInv sess) :
    sessionInv { sess with started_at := x } := by
  obtain ⟨i1, i2, i3, i4, i5⟩ := hinv
  exact ⟨i1, i2, i3, i4, i5⟩

lemma sessionInv_set_hog_far (sess : TimingSession) (ts : Int) (hts : ts ≠ 0)
    (hinv : sessionInv sess) :
    sessionInv { sess with hog_far_time_ns := some ts } := by
  obtain ⟨i1, i2, i3, i4, i5⟩ := hinv
  refine ⟨i1, i2, ?_, i4, i5⟩
  intro f hf
  rw [Option.some_inj] at hf
  omega

lemma sessionInv_set_tee (sess : TimingSession) (ts : Int) (hts : ts ≠ 0)
    (hhcn : sess.hog_close_time_ns = none) (hinv : sessionInv sess) :
    sessionInv { sess with tee_time_ns := some ts } := by
  obtain ⟨i1, i2, i3, i4, i5⟩ := hinv
  refine ⟨?_, ?_, i3, ?_, ?_⟩
  · intro t ht
    simp only [Option.some_inj] at ht
    omega
  · intro h hh
    simp [hhcn] at hh
  · intro hne
    simp [hhcn] at hne
  · intro t h ht hh
    simp [hhcn] at hh

lemma sessionInv_set_hog_close (sess : TimingSession) (t ts : Int)
    (htee : sess.tee_time_ns = some t) (hts : ts ≠ 0) (hgt : t < ts)
    (hinv : sessionInv sess) :
    sessionInv { sess with hog_close_time_ns := some ts } := by
  obtain ⟨i1, i2, i3, i4, i5⟩ := hinv
  refine ⟨i1, ?_, i3, ?_, ?_⟩
  · intro h hh
    simp only [Option.some_inj] at hh
    omega
  · intro _
    simp [htee]
  · intro t' h' ht' hh'
    simp only [htee, Option.some_inj] at ht'
    simp only [Option.some_inj] at hh'
    omega

lemma sessionInv_record_trigger (s1 : RockTimerServer) (d : String) (ts : Int)
    (hts : ts ≠ 0) (hinv : sessionInv s1.session) :
    sessionInv (RockTimerServer.record_trigger d ts s1).session := by
  unfold RockTimerServer.record_trigger
  split_ifs with cA cB cC cD cE
  · -- tee branch: the slot was falsy, so by the invariant it was None, and
    -- then hog_close was None as well
    have htee : s1.session.tee_time_ns = none := by
      cases e : s1.session.tee_time_ns with
      | none => rfl
      | some t =>
        have h1 := hinv.1 t e
        have h2 := cA.2
        rw [e] at h2
        simp [h1] at h2
    have hhcn : s1.session.hog_close_time_ns = none := by
      by_contra hne
      exact (hinv.2.2.2.1 hne) htee
    exact sessionInv_set_tee _ _ hts hhcn hinv
  · -- hog_close branch with the order guard satisfied
    rw [complete_measurement_session]
    obtain ⟨ctee, cgt⟩ := cC
    obtain ⟨t, htee⟩ : ∃ t, s1.session.tee_time_ns = some t := by
      cases e : s1.session.tee_time_ns with
      | none => rw [e] at ctee ; simp at ctee
      | some t => exact ⟨t, rfl⟩
    have hgt : t < ts := by
      rw [htee] at cgt
      simpa using cgt
    exact sessionInv_set_hog_close _ t _ htee hts hgt hinv
  · exact hinv
  · -- hog_far branch with the order guard satisfied
    rw [update_last_record_session]
    exact sessionInv_set_hog_far _ _ hts hinv
  · exact hinv
  · exact hinv

lemma sessionInv_handle_trigger (s : RockTimerServer) (d : String) (ts : Int)
    (now : Nat) (hts : ts ≠ 0) (hinv : sessionInv s.session) :
    sessionInv (RockTimerServer.handle_trigger d ts now s).session := by
  unfold RockTimerServer.handle_trigger
  split_ifs with c1 c2 c3 c4
  · exact hinv
  · rw [update_last_record_session]
    exact sessionInv_set_hog_far _ _ hts hinv
  · show sessionInv (RockTimerServer.record_trigger d ts
      { s with state := .measuring,
               session := { s.session with started_at := some now } }).session
    exact sessionInv_record_trigger _ _ _ hts
      (sessionInv_started_at _ _ hinv)
  · show sessionInv (RockTimerServer.record_trigger d ts s).session
    exact sessionInv_record_trigger _ _ _ hts hinv
  · exact hinv

theorem reachable_sessionInv {s : RockTimerServer} (hs : Reachable s) :
    sessionInv s.session := by
  induction hs with
  | init => exact sessionInv_reset
  | armStep h ih =>
      unfold RockTimerServer.arm
      split_ifs
      · exact sessionInv_reset
      · exact ih
  | disarmStep h ih => exact sessionInv_reset
  | triggerStep d ts now h hts ih =>
      exact sessionInv_handle_trigger _ _ _ _ hts ih
  | clearStep h ih => exact ih
  | markStep d a src now h ih => exact ih

lemma record_trigger_preserves_recorded (s1 : RockTimerServer) (d : String)
    (ts : Int) (hinv : sessionInv s1.session) :
    (∀ t, s1.session.tee_time_ns = some t →
      (RockTimerServer.record_trigger d ts s1).session.tee_time_ns = some t) ∧
    (∀ h, s1.session.hog_close_time_ns = some h →
      (RockTimerServer.record_trigger d ts s1).session.hog_close_time_ns = some h) ∧
    (∀ f, s1.session.hog_far_time_ns = some f →
      (RockTimerServer.record_trigger d ts s1).session.hog_far_time_ns = some f) := by
  obtain ⟨i1, i2, i3, i4, i5⟩ := hinv
  unfold RockTimerServer.record_trigger
  split_ifs with cA cB cC cD cE <;>
    refine ⟨?_, ?_, ?_⟩ <;> intro v hv <;> simp_all

lemma handle_trigger_preserves_recorded (s : RockTimerServer) (d : String)
    (ts : Int) (now : Nat) (hinv : sessionInv s.session) :
    (∀ t, s.session.tee_time_ns = some t →
      (RockTimerServer.handle_trigger d ts now s).session.tee_time_ns = some t) ∧
    (∀ h, s.session.hog_close_time_ns = some h →
      (RockTimerServer.handle_trigger d ts now s).session.hog_close_time_ns = some h) ∧
    (∀ f, s.session.hog_far_time_ns = some f →
      (RockTimerServer.handle_trigger d ts now s).session.hog_far_time_ns = some f) := by
  unfold RockTimerServer.handle_trigger
  split_ifs with c1 c2 c3 c4
  · exact ⟨fun t h => h, fun h hh => hh, fun f h => h⟩
  · obtain ⟨i1, i2, i3, i4, i5⟩ := hinv
    refine ⟨?_, ?_, ?_⟩ <;> intro v hv <;> simp_all
  · have hp := record_trigger_preserves_recorded
      { s with state := .measuring,
               session := { s.session with started_at := some now } } d ts
      (sessionInv_started_at _ _ hinv)
    exact hp
  · exact record_trigger_preserves_recorded s d ts hinv
  · exact ⟨fun t h => h, fun h hh => hh, fun f h => h⟩

lemma reachable_armedServer : Reachable armedServer :=
  Reachable.armStep Reachable.init

lemma reachable_measuringServer : Reachable measuringServer :=
  Reachable.triggerStep "tee" 10 0 reachable_armedServer (by decide)

lemma reachable_completedServer : Reachable completedServer :=
  Reachable.triggerStep "hog_close" 20 1 reachable_measuringServer (by decide)

/-! ## C1: session timestamp invariant -/

/-- Counterexample to C1: the server reached by
[arm, tee@10, hog_close@20, hog_far@15] is reachable, yet the recorded
hog_far timestamp 15 is below the recorded hog_close timestamp 20: the
session timestamps are not strictly increasing in traversal order. -/
theorem session_monotonicity_counterexample :
    Reachable (RockTimerServer.handle_trigger "hog_far" 15 2 completedServer) ∧
    (RockTimerServer.handle_trigger "hog_far" 15 2
      completedServer).session.hog_close_time_ns = some 20 ∧
    (RockTimerServer.handle_trigger "hog_far" 15 2
      completedServer).session.hog_far_time_ns = some 15 ∧
    ¬ ((20 : Int) < 15) := by
  exact ⟨Reachable.triggerStep "hog_far" 15 2 reachable_completedServer (by decide),
    by decide, by decide, by decide⟩

/-- C1 (amended): over every reachable server, the recorded tee timestamp is
strictly below the recorded hog_close timestamp when both are present, and a
timestamp recorded for a checkpoint identity is never overwritten by a later
trigger within the same session; the hog_far slot, filled by the
Completed-state backfill path without a monotonicity check, carries no order
guarantee against hog_close. -/
theorem session_timestamp_invariant_spec (s : RockTimerServer)
    (t h f : Int) (d : String) (ts : Int) (now : Nat)
    (hreach : Reachable s) (_hts : ts ≠ 0) :
    (s.session.tee_time_ns = some t → s.session.hog_close_time_ns = some h →
      t < h) ∧
    (s.session.tee_time_ns = some t →
      (RockTimerServer.handle_trigger d ts now s).session.tee_time_ns = some t) ∧
    (s.session.hog_close_time_ns = some h →
      (RockTimerServer.handle_trigger d ts now s).session.hog_close_time_ns =
        some h) ∧
    (s.session.hog_far_time_ns = some f →
      (RockTimerServer.handle_trigger d ts now s).session.hog_far_time_ns =
        some f) := by
  have hinv := reachable_sessionInv hreach
  have hpres := handle_trigger_preserves_recorded s d ts now hinv
  exact ⟨fun h1 h2 => hinv.2.2.2.2 t h h1 h2, fun h1 => hpres.1 t h1,
    fun h1 => hpres.2.1 h h1, fun h1 => hpres.2.2 f h1⟩

/-- Witness for C1 (amended) at the concrete completed server, a duplicate
tee trigger at 99 ns. -/
theorem session_timestamp_invariant_spec_witness :
    (completedServer.session.tee_time_ns = some 10 →
      completedServer.session.hog_close_time_ns = some 20 → (10 : Int) < 20) ∧
    (completedServer.session.tee_time_ns = some 10 →
      (RockTimerServer.handle_trigger "tee" 99 3
        completedServer).session.tee_time_ns = some 10) ∧
    (completedServer.session.hog_close_time_ns = some 20 →
      (RockTimerServer.handle_trigger "tee" 99 3
        completedServer).session.hog_close_time_ns = some 20) ∧
    (completedServer.session.hog_far_time_ns = some 5 →
      (RockTimerServer.handle_trigger "tee" 99 3
        completedServer).session.hog_far_time_ns = some 5) :=
  session_timestamp_invariant_spec completedServer 10 20 5 "tee" 99 3
    reachable_completedServer (by decide)

/-! ## C2: a full run assigns the next id -/

@[simp]
lemma maxId_nil : maxId [] = 0 := rfl

lemma maxId_cons (r : TimingRecord) (l : List TimingRecord) :
    maxId (r :: l) = max r.id (maxId l) := rfl

lemma maxId_take_le (n : Nat) (l : List TimingRecord) :
    maxId (l.take n) ≤ maxId l := by
  induction l generalizing n with
  | nil => simp
  | cons r t ih =>
      cases n with
      | zero => simp [maxId]
      | succ m =>
          rw [List.take_succ_cons, maxId_cons, maxId_cons]
          exact max_le_max le_rfl (ih m)

/-- Invariant relating the id counter to the ids already in the history: the
counter is one above the largest id present (and 1 when the history is
empty). It holds for every reachable server. -/
def historyIdInv (s : RockTimerServer) : Prop :=
  s.next_id = maxId s.history + 1

lemma historyIdInv_update_last (s : RockTimerServer) (h : historyIdInv s) :
    historyIdInv (RockTimerServer.update_last_record s) := by
  unfold historyIdInv RockTimerServer.update_last_record at *
  cases hh : s.history with
  | nil => simpa [hh] using h
  | cons r rest =>
      rw [hh, maxId_cons] at h
      simpa [maxId_cons] using h

lemma historyIdInv_complete (s : RockTimerServer) (h : historyIdInv s) :
    historyIdInv (RockTimerServer.complete_measurement s) := by
  unfold historyIdInv RockTimerServer.complete_measurement at *
  have hlt : maxId s.history < s.next_id := by omega
  dsimp only
  split_ifs with hlen
  · have h100 : (100 : Nat) = 99 + 1 := rfl
    rw [h100, List.take_succ_cons, maxId_cons]
    dsimp only
    have hle : maxId (List.take 99 s.history) ≤ maxId s.history :=
      maxId_take_le 99 s.history
    omega
  · rw [maxId_cons]
    dsimp only
    omega

lemma historyIdInv_record_trigger (s1 : RockTimerServer) (d : String)
    (ts : Int) (h : historyIdInv s1) :
    historyIdInv (RockTimerServer.record_trigger d ts s1) := by
  unfold RockTimerServer.record_trigger
  split_ifs
  · exact h
  · exact historyIdInv_complete _ h
  · exact h
  · exact historyIdInv_update_last _ h
  · exact h
  · exact h

lemma historyIdInv_handle_trigger (s : RockTimerServer) (d : String)
    (ts : Int) (now : Nat) (h : historyIdInv s) :
    historyIdInv (RockTimerServer.handle_trigger d ts now s) := by
  unfold RockTimerServer.handle_trigger
  split_ifs
  · exact h
  · exact historyIdInv_update_last _ h
  · exact historyIdInv_record_trigger _ _ _ h
  · exact historyIdInv_record_trigger _ _ _ h
  · exact h

theorem reachable_historyIdInv {s : RockTimerServer} (hs : Reachable s) :
    historyIdInv s := by
  induction hs with
  | init => rfl
  | armStep h ih =>
      unfold RockTimerServer.arm
      split_ifs
      · exact ih
      · exact ih
  | disarmStep h ih => exact ih
  | triggerStep d ts now h hts ih => exact historyIdInv_handle_trigger _ _ _ _ ih
  | clearStep h ih => rfl
  | markStep d a src now h ih => exact ih

lemma complete_measurement_history_head (s : RockTimerServer) :
    (RockTimerServer.complete_measurement s).history.head? =
      some { id := s.next_id, timestamp := s.session.started_at,
             tee_to_hog_close_ms := s.session.tee_to_hog_close_ms,
             hog_to_hog_ms := none, total_ms := none } := by
  unfold RockTimerServer.complete_measurement
  dsimp only
  split_ifs with hlen
  · have h100 : (100 : Nat) = 99 + 1 := rfl
    rw [h100, List.take_succ_cons]
    rfl
  · rfl

/-- C2: from any reachable Idle server, the sequence
[arm, trigger(tee, t0), trigger(hog_close, t0 + 3000000000)] (both
timestamps nonzero, as guaranteed by the ingress filter) leaves the system
Completed, derives a first split of exactly 3000 ms, and puts a new record
at the front of the history whose id is the previous maximum id plus one. -/
theorem completed_run_spec (s : RockTimerServer) (t0 : Int) (now1 now2 : Nat)
    (hreach : Reachable s) (hidle : s.state = .idle) (ht0 : t0 ≠ 0)
    (ht0b : t0 + 3000000000 ≠ 0) :
    (RockTimerServer.handle_trigger "hog_close" (t0 + 3000000000) now2
      (RockTimerServer.handle_trigger "tee" t0 now1
        (RockTimerServer.arm s).2)).state = .completed ∧
    (RockTimerServer.handle_trigger "hog_close" (t0 + 3000000000) now2
      (RockTimerServer.handle_trigger "tee" t0 now1
        (RockTimerServer.arm s).2)).session.tee_to_hog_close_ms = some 3000 ∧
    (RockTimerServer.handle_trigger "hog_close" (t0 + 3000000000) now2
      (RockTimerServer.handle_trigger "tee" t0 now1
        (RockTimerServer.arm s).2)).history.head?.map TimingRecord.id =
      some (maxId s.history + 1) ∧
    (RockTimerServer.handle_trigger "hog_close" (t0 + 3000000000) now2
      (RockTimerServer.handle_trigger "tee" t0 now1
        (RockTimerServer.arm s).2)).history.head?.map
          TimingRecord.tee_to_hog_close_ms = some (some 3000) := by
  have hinv : s.next_id = maxId s.history + 1 := reachable_historyIdInv hreach
  have harm : (RockTimerServer.arm s).2 =
      { s with session := .resetSession, state := .armed } := by
    simp [RockTimerServer.arm, hidle]
  have htee : RockTimerServer.handle_trigger "tee" t0 now1
      { s with session := .resetSession, state := .armed } =
      { s with state := .measuring,
               session := { tee_time_ns := some t0, hog_close_time_ns := none,
                            hog_far_time_ns := none, started_at := some now1 } } := by
    simp [RockTimerServer.handle_trigger, RockTimerServer.record_trigger,
      TimingSession.resetSession]
  have hgt : t0 + 3000000000 > t0 := by omega
  have hclose : RockTimerServer.handle_trigger "hog_close" (t0 + 3000000000) now2
      { s with state := .measuring,
               session := { tee_time_ns := some t0, hog_close_time_ns := none,
                            hog_far_time_ns := none, started_at := some now1 } } =
      RockTimerServer.complete_measurement
        { s with state := .measuring,
                 session := { tee_time_ns := some t0,
                              hog_close_time_ns := some (t0 + 3000000000),
                              hog_far_time_ns := none, started_at := some now1 } } := by
    simp [RockTimerServer.handle_trigger, RockTimerServer.record_trigger,
      truthyInt, ht0, hgt]
  have hsplit : ({ tee_time_ns := some t0,
                   hog_close_time_ns := some (t0 + 3000000000),
                   hog_far_time_ns := none,
                   started_at := some now1 } : TimingSession).tee_to_hog_close_ms =
      some 3000 := by
    simp [TimingSession.tee_to_hog_close_ms, truthyInt, ht0, ht0b]
    ring_nf
  rw [harm, htee, hclose]
  refine ⟨complete_measurement_state _, ?_, ?_, ?_⟩
  · rw [complete_measurement_session]
    exact hsplit
  · rw [complete_measurement_history_head]
    dsimp only [Option.map]
    rw [hinv]
  · rw [complete_measurement_history_head]
    dsimp only [Option.map]
    exact congrArg some hsplit

/-- Witness for C2 at the freshly constructed server with t0 = 5 ns. -/
theorem completed_run_spec_witness :
    (RockTimerServer.handle_trigger "hog_close" ((5 : Int) + 3000000000) 1
      (RockTimerServer.handle_trigger "tee" 5 0
        (RockTimerServer.arm initialServer).2)).state = .completed ∧
    (RockTimerServer.handle_trigger "hog_close" ((5 : Int) + 3000000000) 1
      (RockTimerServer.handle_trigger "tee" 5 0
        (RockTimerServer.arm initialServer).2)).session.tee_to_hog_close_ms =
      some 3000 ∧
    (RockTimerServer.handle_trigger "hog_close" ((5 : Int) + 3000000000) 1
      (RockTimerServer.handle_trigger "tee" 5 0
        (RockTimerServer.arm initialServer).2)).history.head?.map
          TimingRecord.id = some (maxId initialServer.history + 1) ∧
    (RockTimerServer.handle_trigger "hog_close" ((5 : Int) + 3000000000) 1
      (RockTimerServer.handle_trigger "tee" 5 0
        (RockTimerServer.arm initialServer).2)).history.head?.map
          TimingRecord.tee_to_hog_close_ms = some (some 3000) :=
  completed_run_spec initialServer 5 0 1 Reachable.init rfl (by decide) (by decide)
